import Mathlib

/-!
Shallow embedding of the taskvault cluster-coordination core
(`src/taskvault/leader.go`, `src/taskvault/agent.go`).

The membership / voter-reconciliation subsystem is modelled as pure
functions over explicit state.  Raft futures are modelled by an oracle
(`RaftOracle`) that fixes, for each kind of call, whether it fails and
what configuration `GetConfiguration` returns; every reconciler function
returns its result together with the ordered list of observable actions
(Raft calls and log statements) it performed.
-/

namespace Taskvault

/-- A member's gossip status (serf.MemberStatus).  `statusNone` stands for
serf's `StatusNone`; the reconciler only distinguishes alive and left. -/
inductive MemberStatus where
  | statusNone
  | alive
  | leaving
  | left
  | failed
deriving DecidableEq, Repr

/-- A gossip member (serf.Member): name, address (IP as a string) and
status.  Tags are abstracted away; they only matter through
`toServerPart`, which the model carries as a function. -/
structure Member where
  name : String
  addr : String
  status : MemberStatus
deriving DecidableEq, Repr

/-- The server-relevant portion of a member's tags (ServerParts): the
Raft server ID, the Raft port and whether the member was launched in
bootstrap mode (`bootstrap=1` tag). -/
structure ServerParts where
  id : String
  port : Nat
  bootstrap : Bool
deriving DecidableEq, Repr

/-- One entry of the Raft configuration (raft.Server): server ID and
network address. -/
structure RaftServer where
  id : String
  address : String
deriving DecidableEq, Repr

/-- The part of the Agent state the reconciler reads: the local node
name (`a.config.NodeName`), the current gossip member list
(`a.serf.Members()`), and the tag parser `toServerPart`, which is kept
abstract (its definition lives outside the reconciler): it returns
`none` for members that do not carry valid server tags. -/
structure AgentModel where
  nodeName : String
  members : List Member
  toServerPart : Member → Option ServerParts

/-- Outcomes of the Raft futures the reconciler waits on.  `none` means
the future succeeds; `some e` means it fails with error text `e`.
`configuration` is the server list `GetConfiguration` reports. -/
structure RaftOracle where
  getConfigurationErr : Option String
  configuration : List RaftServer
  removeServerErr : String → Option String
  addVoterErr : Option String

/-- An observable action of the reconciler: a Raft configuration call or
a log statement. -/
inductive Action where
  | getConfiguration
  | removeServer (id : String)
  | addVoter (id : String) (addr : String)
  | logError (msg : String)
  | logWarn (msg : String)
  | logDebug (msg : String)
deriving DecidableEq, Repr

/-- Whether an action mutates the Raft configuration (AddVoter or
RemoveServer). -/
def Action.isMutation : Action → Bool
  | .addVoter _ _ => true
  | .removeServer _ => true
  | _ => false

/-- Whether an action is any Raft call at all (GetConfiguration,
AddVoter or RemoveServer). -/
def Action.isRaftCall : Action → Bool
  | .getConfiguration => true
  | .addVoter _ _ => true
  | .removeServer _ => true
  | _ => false

/-- `(&net.TCPAddr{IP: m.Addr, Port: parts.Port}).String()`:
the textual `ip:port` address used as the voter address. -/
def mkAddr (ip : String) (port : Nat) : String :=
  ip ++ ":" ++ toString port

/-- The error-log line for two members both in bootstrap mode. -/
def bootstrapConflictMsg (mine other : String) : String :=
  "taskvault: " ++ mine ++ " and " ++ other ++ " are both in bootstrap mode.."

/-- The warn-log line for a leader asked to remove itself. -/
def selfRemoveMsg : String :=
  "removing self should be done by follower"

/-- The debug-log line for the self-join skip. -/
def selfJoinSkipMsg : String :=
  "taskvault: Skipping self join check"

/-- The error-log line for a failed GetConfiguration. -/
def getConfigFailedMsg : String :=
  "taskvault: failed to get raft configuration"

/-- The error-log line RefreshMember emits before surfacing an error. -/
def refreshMemberFailedMsg : String :=
  "failed to Refresh member"

/-- The bootstrap-conflict scan inside `addRaftPeer` (leader.go
lines 146-162): walk `a.serf.Members()`, skip members without server
parts, and return the first member that has a different name and
carries the bootstrap flag. -/
def findBootstrapConflict (a : AgentModel) (mname : String) :
    List Member → Option Member
  | [] => none
  | mem :: rest =>
    match a.toServerPart mem with
    | none => findBootstrapConflict a mname rest
    | some p =>
      if mem.name ≠ mname ∧ p.bootstrap then some mem
      else findBootstrapConflict a mname rest

/-- The server scan inside `addRaftPeer` (leader.go lines 181-197):
for each configured server matching the target address or ID, return
nil early on an exact match, and remove the server when only the
address matches.  The first component is `some r` when the loop makes
the whole function return `r` early, `none` when control falls through
to AddVoter; the second component is the list of actions the loop
performed. -/
def serverScan (o : RaftOracle) (pid addr : String) :
    List RaftServer → Option (Except String Unit) × List Action
  | [] => (none, [])
  | server :: rest =>
    if server.address = addr ∨ server.id = pid then
      if server.address = addr ∧ server.id = pid then
        (some (Except.ok ()), [])
      else if server.address = addr then
        match o.removeServerErr server.id with
        | some e =>
          (some (Except.error
              ("error removing server " ++ server.address ++ ": " ++ e)),
            [Action.removeServer server.id])
        | none =>
          let r := serverScan o pid addr rest
          (r.1, Action.removeServer server.id :: r.2)
      else
        serverScan o pid addr rest
    else
      serverScan o pid addr rest

/-- `addRaftPeer` (leader.go lines 144-207): reconcile a live server
member into the Raft voter set.  Returns the function result together
with the ordered actions performed. -/
def addRaftPeer (a : AgentModel) (o : RaftOracle) (m : Member)
    (parts : ServerParts) : Except String Unit × List Action :=
  let conflict :=
    if parts.bootstrap then findBootstrapConflict a m.name a.members
    else none
  match conflict with
  | some w =>
    (Except.ok (), [Action.logError (bootstrapConflictMsg m.name w.name)])
  | none =>
    let addr := mkAddr m.addr parts.port
    match o.getConfigurationErr with
    | some e =>
      (Except.error e,
        [Action.getConfiguration, Action.logError getConfigFailedMsg])
    | none =>
      if m.name = a.nodeName ∧ o.configuration.length < 3 then
        (Except.ok (),
          [Action.getConfiguration, Action.logDebug selfJoinSkipMsg])
      else
        match serverScan o parts.id addr o.configuration with
        | (some r, t) => (r, Action.getConfiguration :: t)
        | (none, t) =>
          match o.addVoterErr with
          | some e =>
            (Except.error e,
              Action.getConfiguration ::
                t ++ [Action.addVoter parts.id addr])
          | none =>
            (Except.ok (),
              Action.getConfiguration ::
                t ++ [Action.addVoter parts.id addr])

/-- The server scan inside `removeRaftPeer` (leader.go lines 223-231):
remove the first configured server whose ID matches, then stop. -/
def removeScan (o : RaftOracle) (pid : String) :
    List RaftServer → Except String Unit × List Action
  | [] => (Except.ok (), [])
  | server :: rest =>
    if server.id = pid then
      match o.removeServerErr pid with
      | some e => (Except.error e, [Action.removeServer pid])
      | none => (Except.ok (), [Action.removeServer pid])
    else removeScan o pid rest

/-- `removeRaftPeer` (leader.go lines 209-234): reconcile a departed
server member out of the Raft voter set; a leader never removes
itself. -/
def removeRaftPeer (a : AgentModel) (o : RaftOracle) (m : Member)
    (parts : ServerParts) : Except String Unit × List Action :=
  if m.name = a.nodeName then
    (Except.ok (), [Action.logWarn selfRemoveMsg])
  else
    match o.getConfigurationErr with
    | some e => (Except.error e, [Action.getConfiguration])
    | none =>
      let r := removeScan o parts.id o.configuration
      (r.1, Action.getConfiguration :: r.2)

/-- `RefreshMember` (leader.go lines 119-142): ignore members without
server tags, dispatch on status (alive → add, left → remove, anything
else → no-op), log and surface a failure. -/
def refreshMember (a : AgentModel) (o : RaftOracle) (m : Member) :
    Except String Unit × List Action :=
  match a.toServerPart m with
  | none => (Except.ok (), [])
  | some parts =>
    let r :=
      match m.status with
      | MemberStatus.alive => addRaftPeer a o m parts
      | MemberStatus.left => removeRaftPeer a o m parts
      | _ => (Except.ok (), [])
    match r with
    | (Except.error e, t) =>
      (Except.error e, t ++ [Action.logError refreshMemberFailedMsg])
    | ok => ok

/-- The sweep loop of `Refresh` (leader.go lines 110-115) over an
explicit member list: reconcile members in order, aborting at the
first error. -/
def refreshList (a : AgentModel) (o : RaftOracle) :
    List Member → Except String Unit × List Action
  | [] => (Except.ok (), [])
  | m :: rest =>
    match refreshMember a o m with
    | (Except.error e, t) => (Except.error e, t)
    | (Except.ok _, t) =>
      let r := refreshList a o rest
      (r.1, t ++ r.2)

/-- `Refresh` (leader.go lines 105-117): a full sweep over
`a.serf.Members()`. -/
def refresh (a : AgentModel) (o : RaftOracle) :
    Except String Unit × List Action :=
  refreshList a o a.members

/-! ## Leadership monitor (`monitorLeadership`, leader.go lines 19-58) -/

/-- What `monitorLeadership` does on one leadership event. -/
inductive MonitorAction where
  | spawnedLoop
  | duplicateAcquireLogged
  | stoppedLoopAndWaited
  | duplicateReleaseLogged
deriving DecidableEq, Repr

/-- One step of `monitorLeadership`: `running` says whether a leader
loop is currently active (`weAreLeaderCh ≠ nil`); the event is the
boolean received on `a.leaderCh`.  On a duplicate acquire or release
the monitor logs an error and keeps its state; on a release it closes
the stop channel and blocks on `leaderLoop.Wait()` until the loop has
exited, so when the step completes the loop count is 0. -/
def monitorStep (running : Bool) (isLeader : Bool) : Bool × MonitorAction :=
  if isLeader then
    if running then (true, MonitorAction.duplicateAcquireLogged)
    else (true, MonitorAction.spawnedLoop)
  else
    if running then (false, MonitorAction.stoppedLoopAndWaited)
    else (false, MonitorAction.duplicateReleaseLogged)

/-- Running state of the monitor after a sequence of leadership
events, starting from `running`. -/
def monitorRun (running : Bool) : List Bool → Bool
  | [] => running
  | e :: es => monitorRun (monitorStep running e).1 es

/-- The number of active leader loops the monitor accounts for: 1 when
one is running, 0 otherwise. -/
def activeLoops (running : Bool) : Nat :=
  if running then 1 else 0

/-! ## Reconciler loop (`leaderLoop`, leader.go lines 60-103) -/

/-- The blocking operations and checkpoints of one REFRESH pass of
`leaderLoop`, in program order. -/
inductive LoopOp where
  | barrier
  | sweep
  | stopCheck
deriving DecidableEq, Repr

/-- The ordered operations of one REFRESH pass, as a function of
whether the barrier and the sweep fail: a barrier error jumps straight
to WAIT; a sweep error jumps to WAIT; only after a successful sweep is
the non-blocking select on the stop channel executed. -/
def refreshPassOps (barrierErr sweepErr : Bool) : List LoopOp :=
  if barrierErr then [LoopOp.barrier]
  else if sweepErr then [LoopOp.barrier, LoopOp.sweep]
  else [LoopOp.barrier, LoopOp.sweep, LoopOp.stopCheck]

/-- The alternatives of the WAIT-phase select (leader.go lines 89-102). -/
inductive WaitCase where
  | stopCase
  | shutdownCase
  | tickCase
  | memberCase
deriving DecidableEq, Repr

/-- Readiness of the channels the WAIT select multiplexes over. -/
structure WaitReady where
  stopClosed : Bool
  shutdownClosed : Bool
  tickFired : Bool
  memberPending : Option Member
deriving Repr

/-- Whether a select alternative is ready in a given environment.  The
stop channel is one of the alternatives of every WAIT iteration, so it
is ready exactly when leadership loss has closed it. -/
def waitEnabled (r : WaitReady) : WaitCase → Bool
  | WaitCase.stopCase => r.stopClosed
  | WaitCase.shutdownCase => r.shutdownClosed
  | WaitCase.tickCase => r.tickFired
  | WaitCase.memberCase => r.memberPending.isSome

/-- Control state of the reconciler loop. -/
inductive LoopPhase where
  | refreshing
  | waiting
  | exited
deriving DecidableEq, Repr

/-- What taking a WAIT-select alternative does to the control state:
stop and shutdown exit the loop, the tick reruns the REFRESH section,
and an incremental member event keeps waiting after reconciling it. -/
def waitDispatch : WaitCase → LoopPhase
  | WaitCase.stopCase => LoopPhase.exited
  | WaitCase.shutdownCase => LoopPhase.exited
  | WaitCase.tickCase => LoopPhase.refreshing
  | WaitCase.memberCase => LoopPhase.waiting

/-- Control state after one REFRESH pass: the loop exits at the
post-sweep stop check only when barrier and sweep both succeeded and
the stop channel is closed; otherwise it proceeds to WAIT. -/
def refreshPassNext (barrierErr sweepErr stopClosed : Bool) : LoopPhase :=
  if barrierErr then LoopPhase.waiting
  else if sweepErr then LoopPhase.waiting
  else if stopClosed then LoopPhase.exited
  else LoopPhase.waiting

/-! ## Raft bootstrap (`setupRaft`, agent.go lines 156-260) -/

/-- The configuration fields `setupRaft` consults when deciding whether
to call `raft.BootstrapCluster`. -/
structure RaftSetupConfig where
  bootstrap : Bool
  bootstrapExpect : Nat
  devMode : Bool
deriving DecidableEq, Repr

/-- agent.go lines 157-159: `BootstrapExpect == 1` forces
`Bootstrap = true` before anything else. -/
def effectiveBootstrap (c : RaftSetupConfig) : Bool :=
  c.bootstrap || c.bootstrapExpect = 1

/-- agent.go lines 226-247: `BootstrapCluster` runs exactly when
(`Bootstrap` after normalization, or `DevMode`) holds and
`HasExistingState` reports no prior state; the bootstrapped
configuration then contains only the local node.  Returns the
configuration passed to `BootstrapCluster`, or `none` when no
bootstrap call is made. -/
def setupRaftBootstrap (c : RaftSetupConfig) (hasState : Bool)
    (localID localAddr : String) : Option (List RaftServer) :=
  if (effectiveBootstrap c || c.devMode) && !hasState then
    some [{ id := localID, address := localAddr }]
  else
    none

/-! ## Concrete sample data used by witnesses and counterexamples -/

/-- A success oracle over a fixed configuration: every future succeeds. -/
def okOracle (cfg : List RaftServer) : RaftOracle :=
  { getConfigurationErr := none
    configuration := cfg
    removeServerErr := fun _ => none
    addVoterErr := none }

/-- An oracle whose GetConfiguration future fails. -/
def badConfigOracle (e : String) : RaftOracle :=
  { getConfigurationErr := some e
    configuration := []
    removeServerErr := fun _ => none
    addVoterErr := none }

/-- A failed remote member. -/
def failedMember : Member := ⟨"n1", "10.0.0.1", MemberStatus.failed⟩

/-- A departed member named like the local node. -/
def leftSelfMember : Member := ⟨"n0", "10.0.0.9", MemberStatus.left⟩

/-- A live member named like the local node. -/
def aliveSelfMember : Member := ⟨"n0", "10.0.0.9", MemberStatus.alive⟩

/-- A live remote member. -/
def aliveRemoteMember : Member := ⟨"n1", "10.0.0.1", MemberStatus.alive⟩

/-- A second live remote member. -/
def aliveRemoteMember2 : Member := ⟨"n2", "10.0.0.2", MemberStatus.alive⟩

/-- Non-bootstrap server parts with a given ID. -/
def plainParts (id : String) : ServerParts := ⟨id, 6868, false⟩

/-- Bootstrap server parts with a given ID. -/
def bootParts (id : String) : ServerParts := ⟨id, 6868, true⟩

/-- An agent whose members all parse to non-bootstrap parts named after
the member. -/
def plainAgent (nodeName : String) (ms : List Member) : AgentModel :=
  ⟨nodeName, ms, fun mem => some (plainParts mem.name)⟩

/-- An agent whose members all parse to bootstrap parts named after the
member. -/
def bootAgent (nodeName : String) (ms : List Member) : AgentModel :=
  ⟨nodeName, ms, fun mem => some (bootParts mem.name)⟩

/-- An agent for the sweep-abort witness: member `n1` parses to server
parts, member `n2` does not. -/
def sweepAgent : AgentModel :=
  ⟨"n0", [failedMember, aliveRemoteMember2],
    fun mem => if mem.name = "n2" then some (plainParts "n2") else none⟩

/-! ## Helper lemmas -/

/-- `monitorStep` always leaves the running flag equal to the event
just received. -/
theorem monitorStep_fst (r e : Bool) : (monitorStep r e).1 = e := by
  cases r <;> cases e <;> rfl

/-- After any event sequence the monitor's running flag equals the last
event received (or the initial flag when none was). -/
theorem monitorRun_eq_getLastD (r : Bool) (evs : List Bool) :
    monitorRun r evs = evs.getLastD r := by
  induction evs generalizing r with
  | nil => rfl
  | cons e es ih =>
    rw [monitorRun, monitorStep_fst, ih, List.getLastD_cons]

/-- If the member list holds a member with server parts, the bootstrap
flag and a name other than `mname`, the conflict scan finds some such
member. -/
theorem findBootstrapConflict_isSome (a : AgentModel) (mname : String)
    (l : List Member) (mem : Member) (hm : mem ∈ l)
    (p : ServerParts) (hp : a.toServerPart mem = some p)
    (hb : p.bootstrap = true) (hn : mem.name ≠ mname) :
    ∃ w, findBootstrapConflict a mname l = some w := by
  induction l with
  | nil => cases hm
  | cons head rest ih =>
    rcases List.mem_cons.mp hm with rfl | hmem
    · refine ⟨mem, ?_⟩
      unfold findBootstrapConflict
      rw [hp]
      simp [hn, hb]
    · unfold findBootstrapConflict
      rcases hh : a.toServerPart head with _ | q
      · exact ih hmem
      · by_cases hcond : head.name ≠ mname ∧ q.bootstrap
        · exact ⟨head, by simp [hcond]⟩
        · simpa [hcond] using ih hmem

/-- When no configured server carries the target address, the server
scan falls through without acting: id-only matches are left alone. -/
theorem serverScan_no_addr (o : RaftOracle) (pid addr : String)
    (l : List RaftServer) (h : ∀ s ∈ l, s.address ≠ addr) :
    serverScan o pid addr l = (none, []) := by
  induction l with
  | nil => rfl
  | cons s rest ih =>
    have hs : s.address ≠ addr := h s (List.mem_cons_self s rest)
    have ih' := ih fun t ht => h t (List.mem_cons_of_mem s ht)
    unfold serverScan
    by_cases hid : s.id = pid
    · simp [hs, hid, ih']
    · simp [hs, hid, ih']

/-- When the configuration (with pairwise-distinct addresses) already
holds the exact target entry, the server scan returns nil early
without acting. -/
theorem serverScan_exact (o : RaftOracle) (pid addr : String)
    (l : List RaftServer)
    (huniq : l.Pairwise fun s t => s.address ≠ t.address)
    (s0 : RaftServer) (h0 : s0 ∈ l) (ha : s0.address = addr)
    (hi : s0.id = pid) :
    serverScan o pid addr l = (some (Except.ok ()), []) := by
  induction l with
  | nil => cases h0
  | cons s rest ih =>
    rcases List.mem_cons.mp h0 with rfl | hmem
    · unfold serverScan
      simp [ha, hi]
    · have hsa : s.address ≠ addr := by
        rw [← ha]
        have := (List.pairwise_cons.mp huniq).1 s0 hmem
        exact this
      have ih' := ih (List.pairwise_cons.mp huniq).2 hmem
      unfold serverScan
      by_cases hid : s.id = pid
      · simp [hsa, hid, ih']
      · simp [hsa, hid, ih']

/-- When the configuration (with pairwise-distinct addresses) holds a
server with the target address but a different ID, the scan removes
exactly that server and then falls through to AddVoter. -/
theorem serverScan_stale (o : RaftOracle) (pid addr : String)
    (hrs : ∀ i, o.removeServerErr i = none)
    (l : List RaftServer)
    (huniq : l.Pairwise fun s t => s.address ≠ t.address)
    (s0 : RaftServer) (h0 : s0 ∈ l) (ha : s0.address = addr)
    (hi : s0.id ≠ pid) :
    serverScan o pid addr l = (none, [Action.removeServer s0.id]) := by
  induction l with
  | nil => cases h0
  | cons s rest ih =>
    rcases List.mem_cons.mp h0 with rfl | hmem
    · have hrest : ∀ t ∈ rest, t.address ≠ addr := by
        intro t ht
        rw [← ha]
        exact fun he => (List.pairwise_cons.mp huniq).1 t ht he.symm
      unfold serverScan
      simp [ha, hi, hrs s0.id, serverScan_no_addr o pid addr rest hrest]
    · have hsa : s.address ≠ addr := by
        rw [← ha]
        exact (List.pairwise_cons.mp huniq).1 s0 hmem
      have ih' := ih (List.pairwise_cons.mp huniq).2 hmem
      unfold serverScan
      by_cases hid : s.id = pid
      · simp [hsa, hid, ih']
      · simp [hsa, hid, ih']

/-! ## Claim theorems -/

/-- C10: a server member whose status is neither alive nor left is left
untouched: `RefreshMember` returns nil and performs no Raft call at
all, so a merely failed member keeps its voter entry. -/
theorem refreshMember_ignores_other_statuses (a : AgentModel)
    (o : RaftOracle) (m : Member) (parts : ServerParts)
    (hp : a.toServerPart m = some parts)
    (ha : m.status ≠ MemberStatus.alive)
    (hl : m.status ≠ MemberStatus.left) :
    refreshMember a o m = (Except.ok (), []) := by
  unfold refreshMember
  rw [hp]
  rcases hst : m.status <;> simp_all

/-- Witness for C10 at a concrete failed member. -/
theorem refreshMember_ignores_other_statuses_witness :
    refreshMember (plainAgent "n0" [failedMember]) (okOracle []) failedMember =
      (Except.ok (), []) :=
  refreshMember_ignores_other_statuses
    (plainAgent "n0" [failedMember]) (okOracle []) failedMember
    (plainParts "n1") rfl (by decide) (by decide)

/-- C5: a departed member carrying the local node's name is never
self-removed: `RefreshMember` logs a warning and returns nil without
any Raft call, in particular without `RemoveServer`. -/
theorem removeRaftPeer_never_self (a : AgentModel) (o : RaftOracle)
    (m : Member) (parts : ServerParts)
    (hp : a.toServerPart m = some parts)
    (hs : m.status = MemberStatus.left)
    (hn : m.name = a.nodeName) :
    refreshMember a o m = (Except.ok (), [Action.logWarn selfRemoveMsg]) := by
  unfold refreshMember
  rw [hp, hs]
  simp [removeRaftPeer, hn]

/-- Witness for C5 at a concrete departed local member. -/
theorem removeRaftPeer_never_self_witness :
    refreshMember (plainAgent "n0" [leftSelfMember]) (okOracle [])
        leftSelfMember =
      (Except.ok (), [Action.logWarn selfRemoveMsg]) :=
  removeRaftPeer_never_self
    (plainAgent "n0" [leftSelfMember]) (okOracle []) leftSelfMember
    (plainParts "n0") rfl rfl rfl

/-- C3: the monitor accounts for 0 or 1 leader loops, a loop runs only
when the most recent leadership event was `true`, a duplicate
`isLeader=true` is logged and ignored without spawning a second loop,
and `isLeader=false` while running stops the loop and waits for its
exit. -/
theorem monitorLeadership_at_most_one_loop :
    (∀ evs : List Bool,
      activeLoops (monitorRun false evs) = 0 ∨
        activeLoops (monitorRun false evs) = 1)
    ∧ (∀ evs : List Bool,
        monitorRun false evs = true → evs.getLast? = some true)
    ∧ monitorStep true true = (true, MonitorAction.duplicateAcquireLogged)
    ∧ monitorStep false true = (true, MonitorAction.spawnedLoop)
    ∧ monitorStep true false = (false, MonitorAction.stoppedLoopAndWaited) := by
  refine ⟨?_, ?_, rfl, rfl, rfl⟩
  · intro evs
    cases h : monitorRun false evs
    · left; simp [activeLoops, h]
    · right; simp [activeLoops, h]
  · intro evs h
    rw [monitorRun_eq_getLastD] at h
    cases hlast : evs.getLast? with
    | none =>
      rw [List.getLastD_eq_getLast?, hlast] at h
      simp at h
    | some b =>
      rw [List.getLastD_eq_getLast?, hlast] at h
      simp at h
      rw [h]

/-- Witness for C3: after the event sequence true,false,true a loop is
running and the last event was indeed true. -/
theorem monitorLeadership_at_most_one_loop_witness :
    [true, false, true].getLast? = some true :=
  monitorLeadership_at_most_one_loop.2.1 [true, false, true] rfl

/-- C4 counterexample: with `DevMode=true`, `Bootstrap=false` and
`BootstrapExpect=3`, `setupRaft` calls `BootstrapCluster` on a fresh
store even though neither `Bootstrap=true` nor `BootstrapExpect=1`
holds, refuting the claimed equivalence. -/
theorem setupRaft_bootstrap_counterexample :
    setupRaftBootstrap ⟨false, 3, true⟩ false "n0" "10.0.0.9:6868" =
      some [{ id := "n0", address := "10.0.0.9:6868" }]
    ∧ ¬ ((false : Bool) = true ∨ (3 : Nat) = 1) := by
  exact ⟨rfl, by decide⟩

/-- C4 amended: `BootstrapCluster` is called, with a single-server
configuration holding only the local node's ID and address, exactly
when (`Bootstrap=true` or `BootstrapExpect=1` or `DevMode=true`) and
the stores hold no existing state; in every other case no
`BootstrapCluster` call is made. -/
theorem setupRaft_bootstrap_amended (c : RaftSetupConfig) (hasState : Bool)
    (localID localAddr : String) :
    setupRaftBootstrap c hasState localID localAddr =
      (if (c.bootstrap = true ∨ c.bootstrapExpect = 1 ∨ c.devMode = true)
          ∧ hasState = false then
        some [{ id := localID, address := localAddr }]
      else none) := by
  rcases c with ⟨b, n, d⟩
  unfold setupRaftBootstrap effectiveBootstrap
  by_cases hn : n = 1 <;> cases b <;> cases d <;> cases hasState <;>
    simp [hn]

/-- C9 counterexample: in an error-free pass of `leaderLoop`, the
operation immediately after the barrier is the full sweep (blocking
Raft work), not the stop-channel check; the stop check only comes
after the sweep. -/
theorem leaderLoop_stop_after_sweep_counterexample :
    refreshPassOps false false =
      [LoopOp.barrier, LoopOp.sweep, LoopOp.stopCheck]
    ∧ (refreshPassOps false false)[1]? = some LoopOp.sweep
    ∧ (refreshPassOps false false)[1]? ≠ some LoopOp.stopCheck := by
  decide

/-- C9 amended: the stop channel is checked immediately after a
successful sweep (not directly after the barrier: the sweep runs in
between) and is one of the alternatives of every wait-phase select, so
once leadership loss closes it the stop alternative is enabled and
taking it exits the loop; the post-sweep check with the stop channel
closed also exits, and no pass restarts refreshing while stop is
pending unless the tick is chosen over it. -/
theorem leaderLoop_stop_checks_amended :
    (refreshPassOps false false =
      [LoopOp.barrier, LoopOp.sweep, LoopOp.stopCheck])
    ∧ (∀ r : WaitReady, r.stopClosed = true →
        waitEnabled r WaitCase.stopCase = true)
    ∧ waitDispatch WaitCase.stopCase = LoopPhase.exited
    ∧ refreshPassNext false false true = LoopPhase.exited := by
  refine ⟨rfl, ?_, rfl, rfl⟩
  intro r h
  simp [waitEnabled, h]

/-- Witness for the amended C9 at a concrete wait environment with the
stop channel closed. -/
theorem leaderLoop_stop_checks_amended_witness :
    waitEnabled ⟨true, false, false, none⟩ WaitCase.stopCase = true :=
  leaderLoop_stop_checks_amended.2.1 ⟨true, false, false, none⟩ rfl

/-- C6: for a live member named like the local node, when the fetched
configuration has fewer than three servers, `RefreshMember` returns
nil without issuing `AddVoter` or `RemoveServer`, leaving the
configuration unchanged. -/
theorem addRaftPeer_self_join_guard (a : AgentModel) (o : RaftOracle)
    (m : Member) (parts : ServerParts)
    (hp : a.toServerPart m = some parts)
    (hs : m.status = MemberStatus.alive)
    (hn : m.name = a.nodeName)
    (hg : o.getConfigurationErr = none)
    (hlen : o.configuration.length < 3) :
    (refreshMember a o m).1 = Except.ok () ∧
      ∀ c ∈ (refreshMember a o m).2, c.isMutation = false := by
  have hsj : m.name = a.nodeName ∧ o.configuration.length < 3 := ⟨hn, hlen⟩
  rcases hc : (if parts.bootstrap then findBootstrapConflict a m.name a.members
      else none) with _ | w
  · simp only [refreshMember, addRaftPeer, hp, hs, hc, hg, if_pos hsj]
    simp [Action.isMutation]
  · simp only [refreshMember, addRaftPeer, hp, hs, hc]
    simp [Action.isMutation]

/-- Witness for C6 at a concrete live local member over an empty
configuration. -/
theorem addRaftPeer_self_join_guard_witness :
    (refreshMember (plainAgent "n0" [aliveSelfMember]) (okOracle [])
        aliveSelfMember).1 = Except.ok ()
    ∧ ∀ c ∈ (refreshMember (plainAgent "n0" [aliveSelfMember]) (okOracle [])
        aliveSelfMember).2, c.isMutation = false :=
  addRaftPeer_self_join_guard (plainAgent "n0" [aliveSelfMember])
    (okOracle []) aliveSelfMember (plainParts "n0") rfl rfl rfl rfl
    (by decide)

/-- C2: a live bootstrap member that conflicts with another live
bootstrap member is skipped: `RefreshMember` logs an error, returns
nil, and performs no Raft call at all, so the sweep continues. -/
theorem addRaftPeer_bootstrap_conflict (a : AgentModel) (o : RaftOracle)
    (m : Member) (parts : ServerParts) (other : Member)
    (pother : ServerParts)
    (hp : a.toServerPart m = some parts)
    (hs : m.status = MemberStatus.alive)
    (hb : parts.bootstrap = true)
    (hmem : other ∈ a.members)
    (_hlive : other.status = MemberStatus.alive)
    (hname : other.name ≠ m.name)
    (hpo : a.toServerPart other = some pother)
    (hbo : pother.bootstrap = true) :
    ∃ msg, refreshMember a o m = (Except.ok (), [Action.logError msg]) := by
  obtain ⟨w, hw⟩ :=
    findBootstrapConflict_isSome a m.name a.members other hmem pother hpo
      hbo hname
  refine ⟨bootstrapConflictMsg m.name w.name, ?_⟩
  simp only [refreshMember, addRaftPeer, hb, if_true, hp, hs, hw]

/-- Witness for C2 at two concrete live bootstrap members. -/
theorem addRaftPeer_bootstrap_conflict_witness :
    ∃ msg, refreshMember
        (bootAgent "n9" [aliveRemoteMember, aliveRemoteMember2])
        (okOracle []) aliveRemoteMember =
      (Except.ok (), [Action.logError msg]) :=
  addRaftPeer_bootstrap_conflict
    (bootAgent "n9" [aliveRemoteMember, aliveRemoteMember2]) (okOracle [])
    aliveRemoteMember (bootParts "n1") aliveRemoteMember2 (bootParts "n2")
    rfl rfl rfl (by decide) rfl (by decide) rfl rfl

/-- C1: for a live server member with target entry (id*, addr*), no
bootstrap conflict and the self-join guard not triggered, over a
configuration with distinct addresses and succeeding futures: an exact
(id*, addr*) entry means no configuration change and a nil return; an
addr* entry under a different ID is removed via RemoveServer and then
AddVoter(id*, addr*) is issued; otherwise AddVoter(id*, addr*) is
issued. -/
theorem addRaftPeer_reconciles (a : AgentModel) (o : RaftOracle)
    (m : Member) (parts : ServerParts)
    (hp : a.toServerPart m = some parts)
    (hs : m.status = MemberStatus.alive)
    (hnc : parts.bootstrap = true →
      findBootstrapConflict a m.name a.members = none)
    (hg : o.getConfigurationErr = none)
    (hav : o.addVoterErr = none)
    (hrs : ∀ i, o.removeServerErr i = none)
    (hsj : ¬ (m.name = a.nodeName ∧ o.configuration.length < 3))
    (huniq : o.configuration.Pairwise fun s t => s.address ≠ t.address) :
    ((∃ s ∈ o.configuration,
        s.address = mkAddr m.addr parts.port ∧ s.id = parts.id) →
      refreshMember a o m = (Except.ok (), [Action.getConfiguration]))
    ∧ (∀ s ∈ o.configuration, s.address = mkAddr m.addr parts.port →
        s.id ≠ parts.id →
      refreshMember a o m = (Except.ok (),
        [Action.getConfiguration, Action.removeServer s.id,
         Action.addVoter parts.id (mkAddr m.addr parts.port)]))
    ∧ ((∀ s ∈ o.configuration, s.address ≠ mkAddr m.addr parts.port) →
      refreshMember a o m = (Except.ok (),
        [Action.getConfiguration,
         Action.addVoter parts.id (mkAddr m.addr parts.port)])) := by
  have hcnone : (if parts.bootstrap then
      findBootstrapConflict a m.name a.members else none) = none := by
    by_cases hb : parts.bootstrap
    · simp [hb, hnc hb]
    · simp [hb]
  refine ⟨?_, ?_, ?_⟩
  · rintro ⟨s0, h0, ha, hi⟩
    have hscan := serverScan_exact o parts.id (mkAddr m.addr parts.port)
      o.configuration huniq s0 h0 ha hi
    simp only [refreshMember, addRaftPeer, hp, hs, hcnone, hg,
      if_neg hsj, hscan]
  · intro s0 h0 ha hi
    have hscan := serverScan_stale o parts.id (mkAddr m.addr parts.port)
      hrs o.configuration huniq s0 h0 ha hi
    simp only [refreshMember, addRaftPeer, hp, hs, hcnone, hg,
      if_neg hsj, hscan, hav]
    simp
  · intro hnone
    have hscan := serverScan_no_addr o parts.id (mkAddr m.addr parts.port)
      o.configuration hnone
    simp only [refreshMember, addRaftPeer, hp, hs, hcnone, hg,
      if_neg hsj, hscan, hav]
    simp

/-- Witness for C1 at a concrete live remote member over an empty
configuration: the third case fires and AddVoter is issued. -/
theorem addRaftPeer_reconciles_witness :
    refreshMember (plainAgent "n0" [aliveRemoteMember]) (okOracle [])
        aliveRemoteMember =
      (Except.ok (), [Action.getConfiguration,
        Action.addVoter (plainParts "n1").id
          (mkAddr aliveRemoteMember.addr (plainParts "n1").port)]) :=
  (addRaftPeer_reconciles (plainAgent "n0" [aliveRemoteMember])
    (okOracle []) aliveRemoteMember (plainParts "n1") rfl rfl
    (by decide) rfl rfl (fun _ => rfl) (by decide)
    List.Pairwise.nil).2.2 (by intro s hmem; cases hmem)

/-- C8: a full sweep processes members in the membership order, and
the first failing `RefreshMember` aborts it: `Refresh` returns that
error and the sweep's actions are exactly those of the members up to
and including the failing one, so nothing after it is reconciled. -/
theorem refresh_aborts_on_first_error (a : AgentModel) (o : RaftOracle)
    (pre : List Member) (m : Member) (post : List Member) (e : String)
    (hmem : a.members = pre ++ m :: post)
    (hpre : ∀ p ∈ pre, (refreshMember a o p).1 = Except.ok ())
    (herr : (refreshMember a o m).1 = Except.error e) :
    (refresh a o).1 = Except.error e ∧
      (refresh a o).2 =
        (pre.map fun p => (refreshMember a o p).2).flatten ++
          (refreshMember a o m).2 := by
  have hm : ∀ l : List Member,
      (∀ p ∈ l, (refreshMember a o p).1 = Except.ok ()) →
      refreshList a o (l ++ m :: post) =
        (Except.error e,
          (l.map fun p => (refreshMember a o p).2).flatten ++
            (refreshMember a o m).2) := by
    intro l
    induction l with
    | nil =>
      intro _
      rcases hr : refreshMember a o m with ⟨r, t⟩
      rw [hr] at herr
      simp only at herr
      subst herr
      simp only [List.nil_append, refreshList, hr, List.map_nil,
        List.flatten_nil]
    | cons p rest ih =>
      intro hl
      have hph : (refreshMember a o p).1 = Except.ok () :=
        hl p (List.mem_cons_self p rest)
      have ih' := ih fun q hq => hl q (List.mem_cons_of_mem p hq)
      rcases hq : refreshMember a o p with ⟨r, t⟩
      rw [hq] at hph
      simp only at hph
      subst hph
      simp only [List.cons_append, refreshList, hq, ih', List.map_cons,
        List.flatten_cons, List.append_assoc]
      rw [List.append_eq, ih']
  have key := hm pre hpre
  unfold refresh
  rw [hmem, key]
  exact ⟨rfl, rfl⟩

/-- Witness for C8: a two-member sweep where the second member's
reconciliation fails on GetConfiguration; the sweep aborts with that
error. -/
theorem refresh_aborts_on_first_error_witness :
    (refresh sweepAgent (badConfigOracle "boom")).1 = Except.error "boom" ∧
      (refresh sweepAgent (badConfigOracle "boom")).2 =
        ([failedMember].map fun p =>
            (refreshMember sweepAgent (badConfigOracle "boom") p).2).flatten ++
          (refreshMember sweepAgent (badConfigOracle "boom")
            aliveRemoteMember2).2 :=
  refresh_aborts_on_first_error sweepAgent (badConfigOracle "boom")
    [failedMember] aliveRemoteMember2 [] "boom" rfl
    (fun p hp => by rw [List.mem_singleton.mp hp]; rfl) rfl

/-- C7 counterexample: a live local server member over a small
configuration is skipped by the self-join guard — `RefreshMember`
returns nil, issues no configuration change, and the member's entry is
absent from the configuration — although no two distinct live
bootstrap members exist, so the bootstrap conflict is not the only
nil-returning skip. -/
theorem refreshMember_skip_counterexample :
    (refreshMember (plainAgent "n0" [aliveSelfMember]) (okOracle [])
        aliveSelfMember).1 = Except.ok ()
    ∧ (∀ c ∈ (refreshMember (plainAgent "n0" [aliveSelfMember])
        (okOracle []) aliveSelfMember).2, c.isMutation = false)
    ∧ ¬ (∃ s ∈ (okOracle []).configuration,
          s.address = mkAddr aliveSelfMember.addr (plainParts "n0").port
            ∧ s.id = (plainParts "n0").id)
    ∧ ¬ (∃ x ∈ (plainAgent "n0" [aliveSelfMember]).members,
          ∃ y ∈ (plainAgent "n0" [aliveSelfMember]).members,
          x.name ≠ y.name ∧ x.status = MemberStatus.alive ∧
          y.status = MemberStatus.alive ∧
          ((plainAgent "n0" [aliveSelfMember]).toServerPart x).elim False
            (fun p => p.bootstrap = true) ∧
          ((plainAgent "n0" [aliveSelfMember]).toServerPart y).elim False
            (fun p => p.bootstrap = true)) := by
  refine ⟨rfl, by decide, ?_, ?_⟩
  · rintro ⟨s, hmem, -⟩
    cases hmem
  · simp [plainAgent, plainParts]

/-- C7 amended: for a live server member under succeeding futures over
a configuration with distinct addresses, `RefreshMember` always
returns nil, and it skips the member without a configuration change
exactly when the member is bootstrap-conflicting (with any server
member, live or not), or the self-join guard fires, or the exact
(id*, addr*) entry is already configured. -/
theorem refreshMember_skip_characterization (a : AgentModel)
    (o : RaftOracle) (m : Member) (parts : ServerParts)
    (hp : a.toServerPart m = some parts)
    (hs : m.status = MemberStatus.alive)
    (hg : o.getConfigurationErr = none)
    (hav : o.addVoterErr = none)
    (hrs : ∀ i, o.removeServerErr i = none)
    (huniq : o.configuration.Pairwise fun s t => s.address ≠ t.address) :
    (refreshMember a o m).1 = Except.ok ()
    ∧ ((∀ c ∈ (refreshMember a o m).2, c.isMutation = false)
      ↔ ((parts.bootstrap = true ∧
            (findBootstrapConflict a m.name a.members).isSome = true)
        ∨ (m.name = a.nodeName ∧ o.configuration.length < 3)
        ∨ (∃ s ∈ o.configuration,
            s.address = mkAddr m.addr parts.port ∧ s.id = parts.id))) := by
  rcases hc : (if parts.bootstrap then
      findBootstrapConflict a m.name a.members else none) with _ | w
  · by_cases hsj : m.name = a.nodeName ∧ o.configuration.length < 3
    · have hred : refreshMember a o m = (Except.ok (),
          [Action.getConfiguration, Action.logDebug selfJoinSkipMsg]) := by
        simp only [refreshMember, addRaftPeer, hp, hs, hc, hg, if_pos hsj]
      rw [hred]
      exact ⟨rfl, iff_of_true (by simp [Action.isMutation])
        (Or.inr (Or.inl hsj))⟩
    · have hfirst : ¬ (parts.bootstrap = true ∧
          (findBootstrapConflict a m.name a.members).isSome = true) := by
        rintro ⟨hb, hsome⟩
        rw [if_pos hb] at hc
        rw [hc] at hsome
        simp at hsome
      by_cases hex : ∃ s ∈ o.configuration,
          s.address = mkAddr m.addr parts.port ∧ s.id = parts.id
      · obtain ⟨s0, h0, ha, hi⟩ := hex
        have hscan := serverScan_exact o parts.id (mkAddr m.addr parts.port)
          o.configuration huniq s0 h0 ha hi
        have hred : refreshMember a o m =
            (Except.ok (), [Action.getConfiguration]) := by
          simp only [refreshMember, addRaftPeer, hp, hs, hc, hg,
            if_neg hsj, hscan]
        rw [hred]
        exact ⟨rfl, iff_of_true (by simp [Action.isMutation])
          (Or.inr (Or.inr ⟨s0, h0, ha, hi⟩))⟩
      · by_cases haddr : ∃ s ∈ o.configuration,
            s.address = mkAddr m.addr parts.port
        · obtain ⟨s0, h0, ha⟩ := haddr
          have hi : s0.id ≠ parts.id := fun h => hex ⟨s0, h0, ha, h⟩
          have hscan := serverScan_stale o parts.id
            (mkAddr m.addr parts.port) hrs o.configuration huniq s0 h0 ha hi
          have hred : refreshMember a o m = (Except.ok (),
              [Action.getConfiguration, Action.removeServer s0.id,
               Action.addVoter parts.id (mkAddr m.addr parts.port)]) := by
            simp only [refreshMember, addRaftPeer, hp, hs, hc, hg,
              if_neg hsj, hscan, hav]
            simp
          rw [hred]
          refine ⟨rfl, iff_of_false ?_ ?_⟩
          · intro hall
            have := hall (Action.removeServer s0.id) (by simp)
            simp [Action.isMutation] at this
          · rintro (h1 | h2 | h3)
            · exact hfirst h1
            · exact hsj h2
            · exact hex h3
        · have hnone : ∀ s ∈ o.configuration,
              s.address ≠ mkAddr m.addr parts.port := by
            intro s hsm he
            exact haddr ⟨s, hsm, he⟩
          have hscan := serverScan_no_addr o parts.id
            (mkAddr m.addr parts.port) o.configuration hnone
          have hred : refreshMember a o m = (Except.ok (),
              [Action.getConfiguration,
               Action.addVoter parts.id (mkAddr m.addr parts.port)]) := by
            simp only [refreshMember, addRaftPeer, hp, hs, hc, hg,
              if_neg hsj, hscan, hav]
            simp
          rw [hred]
          refine ⟨rfl, iff_of_false ?_ ?_⟩
          · intro hall
            have := hall
              (Action.addVoter parts.id (mkAddr m.addr parts.port)) (by simp)
            simp [Action.isMutation] at this
          · rintro (h1 | h2 | h3)
            · exact hfirst h1
            · exact hsj h2
            · exact hex h3
  · have hred : refreshMember a o m = (Except.ok (),
        [Action.logError (bootstrapConflictMsg m.name w.name)]) := by
      simp only [refreshMember, addRaftPeer, hp, hs, hc]
    have hbtrue : parts.bootstrap = true ∧
        (findBootstrapConflict a m.name a.members).isSome = true := by
      by_cases hb : parts.bootstrap
      · refine ⟨hb, ?_⟩
        rw [if_pos hb] at hc
        simp [hc]
      · rw [if_neg hb] at hc
        cases hc
    rw [hred]
    exact ⟨rfl, iff_of_true (by simp [Action.isMutation]) (Or.inl hbtrue)⟩

/-- Witness for the amended C7 at a concrete live local member: the
self-join guard case of the characterization. -/
theorem refreshMember_skip_characterization_witness :
    (refreshMember (plainAgent "n0" [aliveSelfMember]) (okOracle [])
        aliveSelfMember).1 = Except.ok () :=
  (refreshMember_skip_characterization (plainAgent "n0" [aliveSelfMember])
    (okOracle []) aliveSelfMember (plainParts "n0") rfl rfl rfl rfl
    (fun _ => rfl) List.Pairwise.nil).1

end Taskvault
